import Mathlib

/-!
# Verification of the CanSat LoRa ground-station serial controller

A shallow embedding of `src/LoRa.py` (class `CanSat_LoRa`), the serial
AT-command controller for a WLR089 LoRa module, together with proofs of the
specification's claims about it.

Modelling conventions:
* The serial transport is an oracle `respond : String → String` mapping the
  exact line written to the module to the bytes buffered when the controller
  reads the reply after the settle delay; every write is logged in `written`
  so that "no byte reaches the transport" is expressible.
* `self.serial` (either `None` or an open `pyserial` handle) becomes
  `Option SerialPort`.
* Python exceptions become `Except Err _`.  `Err.invalidParameter` stands for
  the `ValueError`s the validators raise, `Err.notConnected` for the failure
  of a command issued while `self.serial is None` (in CPython this surfaces
  as an `AttributeError` on `None`), `Err.deviceNotFound` for
  `serial.SerialException("No LoRa module found.")`, and `Err.attributeError`
  for an attribute lookup that fails on the class itself.
* Python `float` inputs are modelled by the exact rational value of the IEEE
  double the caller passes; `int(...)` truncation toward zero is `pyInt`.
* String helpers (`strip`, `startswith`, `split(" ")`, substring `in`,
  `bytes.fromhex`, `bytes.decode`) are re-implemented structurally on
  `List Char` so that all of them reduce on concrete inputs.
-/

/-- The error kinds of the controller, per the spec's taxonomy (§7). -/
inductive Err where
  | invalidParameter
  | notConnected
  | deviceNotFound
  | attributeError
deriving DecidableEq

/-- An open serial handle: the module's reply oracle plus the log of every
line written to the wire. -/
structure SerialPort where
  respond : String → String
  written : List String

/-- The `CanSat_LoRa` object: `__init__` sets `self.serial = None`. -/
structure Session where
  serial : Option SerialPort

/-- Python `str.strip()` restricted to its whitespace default: drop leading
and trailing whitespace characters. -/
def pyStrip (s : String) : String :=
  ⟨((s.data.dropWhile Char.isWhitespace).reverse.dropWhile Char.isWhitespace).reverse⟩

/-- Python `str.startswith(pre)`. -/
def pyStartswith (s pre : String) : Bool :=
  List.isPrefixOf pre.data s.data

/-- Python's substring test `pat in s` (for nonempty `pat`): `pat` occurs as a
contiguous run of `s`. -/
def containsAux (pat : List Char) : List Char → Bool
  | [] => pat.isEmpty
  | c :: rest => List.isPrefixOf pat (c :: rest) || containsAux pat rest

/-- Python `pat in s` on strings. -/
def strContains (s pat : String) : Bool :=
  containsAux pat.data s.data

/-- Python `s.split(" ")`: split at every single occurrence of the separator,
keeping empty pieces. -/
def splitChar (sep : Char) : List Char → List (List Char)
  | [] => [[]]
  | c :: rest =>
    let r := splitChar sep rest
    if c = sep then [] :: r
    else
      match r with
      | g :: gs => (c :: g) :: gs
      | [] => [[c]]

/-- Python `s.split(" ")` on strings. -/
def pySplitSpace (s : String) : List String :=
  (splitChar ' ' s.data).map (fun l => ⟨l⟩)

/-- `send_command` (src/LoRa.py:64): append CR LF, write the line, wait the
settle delay, read everything buffered and strip it.  With `self.serial`
equal to `None` the attribute access on `None` fails: `Err.notConnected`. -/
def send_command (s : Session) (command : String) : Except Err (String × Session) :=
  match s.serial with
  | none => .error .notConnected
  | some sp =>
    let full_command := command ++ "\r\n"
    let sp' : SerialPort := { sp with written := sp.written ++ [full_command] }
    .ok (pyStrip (sp'.respond full_command), ⟨some sp'⟩)

/-- `sys_reset` (src/LoRa.py:83). -/
def sys_reset (s : Session) : Except Err (String × Session) :=
  send_command s "sys reset"

/-- `sys_sleep` (src/LoRa.py:90): mode must be `standby` or `backup`, duration
at least 1000 ms. -/
def sys_sleep (s : Session) (mode : String) (duration : Int) : Except Err (String × Session) :=
  if ¬(mode = "standby" ∨ mode = "backup") then .error .invalidParameter
  else if duration < 1000 then .error .invalidParameter
  else send_command s ("sys sleep " ++ mode ++ " " ++ toString duration)

/-- `sys_factory_reset` (src/LoRa.py:105). -/
def sys_factory_reset (s : Session) : Except Err (String × Session) :=
  send_command s "sys factoryRESET"

/-- `sys_get_version` (src/LoRa.py:112). -/
def sys_get_version (s : Session) : Except Err (String × Session) :=
  send_command s "sys get ver"

/-- `radio_set_frequency` (src/LoRa.py:122): the source rejects when the
frequency is outside all three bands, i.e. when
`(f < 137000000 or f > 175000000) and (f < 410000000 or f > 525000000) and
(f < 862000000 or f > 1020000000)`. -/
def radio_set_frequency (s : Session) (frequency : Int) : Except Err (String × Session) :=
  if (frequency < 137000000 ∨ frequency > 175000000) ∧
     (frequency < 410000000 ∨ frequency > 525000000) ∧
     (frequency < 862000000 ∨ frequency > 1020000000) then
    .error .invalidParameter
  else
    send_command s ("radio set freq " ++ toString frequency)

/-- Python `int(q)` on a (rational-valued) number: truncation toward zero. -/
def pyInt (q : ℚ) : Int :=
  if 0 ≤ q then ⌊q⌋ else ⌈q⌉

/-- `radio_set_frequency_mhz` (src/LoRa.py:134):
`frequency_hz = int(frequency_mhz * 1_000_000)` and then delegate to
`radio_set_frequency`.  The MHz argument is the exact rational value of the
caller's IEEE double. -/
def radio_set_frequency_mhz (s : Session) (frequency_mhz : ℚ) : Except Err (String × Session) :=
  let frequency_hz := pyInt (frequency_mhz * 1000000)
  radio_set_frequency s frequency_hz

/-- The exact value of the IEEE-754 double written `868.35` in the source's
demonstration (`868.35 = 7638087375834317 * 2 ^ (-43)` exactly). -/
def fp868_35 : ℚ := 7638087375834317 / 8796093022208

/-- `radio_set_paboost` (src/LoRa.py:144): state must be `on` or `off`. -/
def radio_set_paboost (s : Session) (state : String) : Except Err (String × Session) :=
  if ¬(state = "on" ∨ state = "off") then .error .invalidParameter
  else send_command s ("radio set pa " ++ state)

/-- `radio_get_paboost` (src/LoRa.py:154). -/
def radio_get_paboost (s : Session) : Except Err (String × Session) :=
  send_command s "radio get pa"

/-- `radio_set_power` (src/LoRa.py:161): power must lie in `[-4, 20]`. -/
def radio_set_power (s : Session) (power : Int) : Except Err (String × Session) :=
  if power < -4 ∨ power > 20 then .error .invalidParameter
  else send_command s ("radio set pwr " ++ toString power)

/-- `radio_set_modulation` (src/LoRa.py:171): mode must be `lora` or `fsk`. -/
def radio_set_modulation (s : Session) (mode : String) : Except Err (String × Session) :=
  if ¬(mode = "lora" ∨ mode = "fsk") then .error .invalidParameter
  else send_command s ("radio set mod " ++ mode)

/-- `radio_set_crc` (src/LoRa.py:182): the source performs no validation of
`state` — it sends the line for every argument. -/
def radio_set_crc (s : Session) (state : String) : Except Err (String × Session) :=
  send_command s ("radio set crc " ++ state)

/-- `radio_get_crc` (src/LoRa.py:189). -/
def radio_get_crc (s : Session) : Except Err (String × Session) :=
  send_command s "radio get crc"

/-- `radio_get_modulation` (src/LoRa.py:195). -/
def radio_get_modulation (s : Session) : Except Err (String × Session) :=
  send_command s "radio get mod"

/-- `radio_get_frequency` (src/LoRa.py:201). -/
def radio_get_frequency (s : Session) : Except Err (String × Session) :=
  send_command s "radio get freq"

/-- The attribute names defined on class `CanSat_LoRa` (source order;
`radio_get_power` is defined twice in the source and collapses to one
class attribute). -/
def canSatLoRaMethods : List String :=
  ["__init__", "find_and_open", "open", "close", "get_ports", "send_command",
   "sys_reset", "sys_sleep", "sys_factory_reset", "sys_get_version",
   "radio_set_frequency", "radio_set_frequency_mhz", "radio_set_paboost",
   "radio_get_paboost", "radio_set_power", "radio_set_modulation",
   "radio_set_crc", "radio_get_crc", "radio_get_modulation",
   "radio_get_frequency", "radio_get_frequency_mhz", "radio_get_power",
   "radio_continous_reception", "radio_transmit", "radio_stop_reception",
   "radio_get_signal_noise_ratio", "radio_get_packet_rssi", "radio_set_cw",
   "set_listen_before_talk", "get_listen_before_talk"]

/-- `radio_get_frequency_mhz` (src/LoRa.py:207): the body evaluates
`self.get_radio_frequency()`.  CPython first resolves the attribute
`get_radio_frequency` against the instance and class; the lookup decides the
outcome before the serial handle is touched.  The found-branch (which would
call the method and divide by `1_000_000`) is unreachable because the class
defines no such attribute; it is mapped to `.ok 0` so that the theorem about
this function genuinely depends on the lookup. -/
def radio_get_frequency_mhz (_s : Session) : Except Err ℚ :=
  if canSatLoRaMethods.contains "get_radio_frequency" then .ok 0
  else .error .attributeError

/-- `radio_get_power` (src/LoRa.py:213 and its verbatim duplicate at 219). -/
def radio_get_power (s : Session) : Except Err (String × Session) :=
  send_command s "radio get pwr"

/-- One lowercase hexadecimal digit (`0`–`9`, `a`–`f`). -/
def hexDigit (n : Nat) : Char :=
  if n < 10 then Char.ofNat (48 + n) else Char.ofNat (87 + n)

/-- Hex digits of `n`, most significant first, accumulated into `acc`;
`fuel`-driven so that it is structural (the fuel `n` always suffices). -/
def toHexFuel : Nat → Nat → List Char → List Char
  | 0, _, acc => acc
  | fuel + 1, n, acc =>
    if n = 0 then acc else toHexFuel fuel (n / 16) (hexDigit (n % 16) :: acc)

/-- Python `f"{n:02x}"`: lowercase hex, zero-padded to width at least 2. -/
def pyHexFmt2 (n : Nat) : String :=
  let ds := if n = 0 then ['0'] else toHexFuel n n []
  if ds.length < 2 then ⟨List.replicate (2 - ds.length) '0' ++ ds⟩ else ⟨ds⟩

/-- `"".join(f"{ord(c):02x}" for c in data)` (src/LoRa.py:254), on the
character list. -/
def encodeChars : List Char → List Char
  | [] => []
  | c :: cs => (pyHexFmt2 c.toNat).data ++ encodeChars cs

/-- The transmit-payload hex encoding of `radio_transmit`. -/
def radio_transmit_encode (data : String) : String :=
  ⟨encodeChars data.data⟩

/-- `radio_transmit` (src/LoRa.py:246): hex-encode the payload (the `print`
of the encoded form is ignored) and send `radio tx <hex> <count>`. -/
def radio_transmit (s : Session) (data : String) (count : Int) : Except Err (String × Session) :=
  send_command s ("radio tx " ++ radio_transmit_encode data ++ " " ++ toString count)

/-- `radio_stop_reception` (src/LoRa.py:261). -/
def radio_stop_reception (s : Session) : Except Err (String × Session) :=
  send_command s "radio rxstop"

/-- `radio_get_signal_noise_ratio` (src/LoRa.py:267). -/
def radio_get_signal_noise_ratio (s : Session) : Except Err (String × Session) :=
  send_command s "radio get snr"

/-- `radio_get_packet_rssi` (src/LoRa.py:270). -/
def radio_get_packet_rssi (s : Session) : Except Err (String × Session) :=
  send_command s "radio get pktrssi"

/-- `radio_set_cw` (src/LoRa.py:273): state must be `on` or `off`. -/
def radio_set_cw (s : Session) (state : String) : Except Err (String × Session) :=
  if ¬(state = "on" ∨ state = "off") then .error .invalidParameter
  else send_command s ("radio cw " ++ state)

/-- `set_listen_before_talk` (src/LoRa.py:288): no validation, the four
parameters are interpolated into the line as written. -/
def set_listen_before_talk (s : Session) (scan_period threshold num_of_samples transmit_on : Int) :
    Except Err (String × Session) :=
  send_command s ("radio set lbt " ++ toString scan_period ++ " " ++ toString threshold ++ " "
    ++ toString num_of_samples ++ " " ++ toString transmit_on)

/-- `get_listen_before_talk` (src/LoRa.py:300). -/
def get_listen_before_talk (s : Session) : Except Err (String × Session) :=
  send_command s "radio get lbt"

/-- Modelled from the spec: `src/LoRa.py` defines no spreading-factor setter;
the spec's validator table (§4.3) requires the set-spreading-factor command
to accept an integer in `[7, 12]` and otherwise fail with `InvalidParameter`
before any wire interaction.  The command verb is the module's
`radio set sf` dialect line. -/
def radio_set_spreading_factor (s : Session) (sf : Int) : Except Err (String × Session) :=
  if sf < 7 ∨ sf > 12 then .error .invalidParameter
  else send_command s ("radio set sf " ++ toString sf)

/-- A candidate port for discovery: its reply oracle (what the device on that
port answers to each written line). -/
structure Candidate where
  respond : String → String

/-- The candidate loop of `find_and_open` (src/LoRa.py:16–34), in the scope
where opening each candidate succeeds and the version query returns: open the
port (a fresh handle), query `sys get ver`, accept on a reply containing
`"WLR089"` (returning at once, further candidates unprobed), otherwise close,
reset `self.serial` to `None` and continue.  The unreachable query-error
branch mirrors the `except serial.SerialException: pass` of the source,
which leaves `self.serial` bound to the just-opened handle. -/
def find_and_open_loop : Session → List Candidate → Session
  | s, [] => s
  | _, c :: rest =>
    let s1 : Session := ⟨some ⟨c.respond, []⟩⟩
    match sys_get_version s1 with
    | .ok (ver, s2) =>
      if strContains ver "WLR089" then s2
      else find_and_open_loop ⟨none⟩ rest
    | .error _ => find_and_open_loop s1 rest

/-- `find_and_open` (src/LoRa.py:9): run the candidate loop and, when
`self.serial` is still `None` afterwards, raise
`serial.SerialException("No LoRa module found.")` — the spec's
`DeviceNotFoundError`.  Returns the outcome together with the final state of
`self`. -/
def find_and_open (s0 : Session) (ports : List Candidate) : Except Err Unit × Session :=
  let s := find_and_open_loop s0 ports
  if s.serial.isNone then (.error .deviceNotFound, s) else (.ok (), s)

/-- Value of one hexadecimal digit, as `bytes.fromhex` accepts it. -/
def hexDigitVal (c : Char) : Option Nat :=
  if 48 ≤ c.toNat ∧ c.toNat ≤ 57 then some (c.toNat - 48)
  else if 97 ≤ c.toNat ∧ c.toNat ≤ 102 then some (c.toNat - 87)
  else if 65 ≤ c.toNat ∧ c.toNat ≤ 70 then some (c.toNat - 55)
  else none

/-- Python `bytes.fromhex` on a string without interior whitespace: consume
hex-digit pairs; an odd length or a non-hex character is a `ValueError`
(`none`). -/
def bytesFromHex : List Char → Option (List Nat)
  | [] => some []
  | [_] => none
  | c1 :: c2 :: rest =>
    match hexDigitVal c1, hexDigitVal c2, bytesFromHex rest with
    | some hi, some lo, some bs => some ((16 * hi + lo) :: bs)
    | _, _, _ => none

/-- Python `bytes.decode()` (strict UTF-8), fuel-driven: decode a byte
sequence, rejecting truncated sequences, stray continuation bytes, overlong
encodings, surrogate code points and values above `0x10FFFF`.  Every decoding
step consumes at least one byte and one unit of fuel, so fuel equal to the
list length (as supplied by `utf8Decode`) always suffices and the
fuel-exhaustion branch is unreachable. -/
def utf8DecodeFuel : Nat → List Nat → Option (List Char)
  | _, [] => some []
  | 0, _ :: _ => none
  | fuel + 1, b :: bs =>
    if b < 128 then (utf8DecodeFuel fuel bs).map (fun cs => Char.ofNat b :: cs)
    else if b < 192 then none
    else if b < 224 then
      (bs.get? 0).bind (fun b1 =>
        if 128 ≤ b1 ∧ b1 < 192 then
          let cp := (b - 192) * 64 + (b1 - 128)
          if cp < 128 then none
          else (utf8DecodeFuel fuel (bs.drop 1)).map (fun cs => Char.ofNat cp :: cs)
        else none)
    else if b < 240 then
      (bs.get? 0).bind (fun b1 => (bs.get? 1).bind (fun b2 =>
        if (128 ≤ b1 ∧ b1 < 192) ∧ (128 ≤ b2 ∧ b2 < 192) then
          let cp := (b - 224) * 4096 + (b1 - 128) * 64 + (b2 - 128)
          if cp < 2048 ∨ (55296 ≤ cp ∧ cp ≤ 57343) then none
          else (utf8DecodeFuel fuel (bs.drop 2)).map (fun cs => Char.ofNat cp :: cs)
        else none))
    else if b < 248 then
      (bs.get? 0).bind (fun b1 => (bs.get? 1).bind (fun b2 => (bs.get? 2).bind (fun b3 =>
        if (128 ≤ b1 ∧ b1 < 192) ∧ (128 ≤ b2 ∧ b2 < 192) ∧ (128 ≤ b3 ∧ b3 < 192) then
          let cp := (b - 240) * 262144 + (b1 - 128) * 4096 + (b2 - 128) * 64 + (b3 - 128)
          if cp < 65536 ∨ cp > 1114111 then none
          else (utf8DecodeFuel fuel (bs.drop 3)).map (fun cs => Char.ofNat cp :: cs)
        else none)))
    else none

/-- Python `bytes.decode()` (strict UTF-8). -/
def utf8Decode (bs : List Nat) : Option (List Char) :=
  utf8DecodeFuel bs.length bs

/-- The receive path's payload decoding, `bytes.fromhex(data).decode()`
(src/LoRa.py:240). -/
def rxDecode (hexStr : String) : Option String :=
  (bytesFromHex hexStr.data).bind (fun bs => (utf8Decode bs).map (fun cs => ⟨cs⟩))

/-- One iteration of the `radio_continous_reception` read loop
(src/LoRa.py:235–241) applied to a received line: on a line starting with
`radio_rx`, take the token after the first space, hex-decode it and hand the
text to the callback (`.ok (some payload)`); a malformed event line raises
out of the loop (`.error ()` — `IndexError` when there is no second token,
`ValueError`/`UnicodeDecodeError` from the payload decoding); any other line
is ignored (`.ok none`) and the loop continues.  No branch breaks the
`while True` loop. -/
def rxProcessLine (response : String) : Except Unit (Option String) :=
  if pyStartswith response "radio_rx" then
    match (pySplitSpace response).get? 1 with
    | none => .error ()
    | some tok =>
      match rxDecode tok with
      | none => .error ()
      | some txt => .ok (some txt)
  else .ok none

/-- The `while True` loop of `radio_continous_reception` run over a finite
trace of inbound lines: collects the callback invocations in order and
reports whether the loop exited within the trace.  The loop body contains no
`break` or `return`, so the only exit is an escaping exception from a
malformed event line; after the trace is exhausted the loop is still blocked
in `readline` (`false`). -/
def rxLoopRun : List String → List String × Bool
  | [] => ([], false)
  | line :: rest =>
    match rxProcessLine line with
    | .error _ => ([], true)
    | .ok inv =>
      let (invs, ex) := rxLoopRun rest
      (inv.toList ++ invs, ex)

/-- The lines written to the wire by a command's outcome (empty when the
command failed before or at the transport). -/
def writtenOf (r : Except Err (String × Session)) : List String :=
  match r with
  | .ok (_, s) =>
    match s.serial with
    | some sp => sp.written
    | none => []
  | .error _ => []

/-- The command operations of the Session's public surface: the system
commands and radio get/set commands of `CanSat_LoRa`, each of which encodes
and sends one line through `send_command`.  `radio_get_frequency_mhz` (whose
body never reaches `send_command`, see `radio_get_frequency_mhz`) and the
streaming entry `radio_continous_reception` are not command operations. -/
inductive Op where
  | sys_reset
  | sys_sleep (mode : String) (duration : Int)
  | sys_factory_reset
  | sys_get_version
  | radio_set_frequency (frequency : Int)
  | radio_set_frequency_mhz (frequency_mhz : ℚ)
  | radio_set_paboost (state : String)
  | radio_get_paboost
  | radio_set_power (power : Int)
  | radio_set_modulation (mode : String)
  | radio_set_crc (state : String)
  | radio_get_crc
  | radio_get_modulation
  | radio_get_frequency
  | radio_get_power
  | radio_transmit (data : String) (count : Int)
  | radio_stop_reception
  | radio_get_signal_noise_ratio
  | radio_get_packet_rssi
  | radio_set_cw (state : String)
  | set_listen_before_talk (scan_period threshold num_of_samples transmit_on : Int)
  | get_listen_before_talk

/-- Dispatch a command operation on a session. -/
def runOp (s : Session) : Op → Except Err (String × Session)
  | .sys_reset => sys_reset s
  | .sys_sleep mode duration => sys_sleep s mode duration
  | .sys_factory_reset => sys_factory_reset s
  | .sys_get_version => sys_get_version s
  | .radio_set_frequency frequency => radio_set_frequency s frequency
  | .radio_set_frequency_mhz frequency_mhz => radio_set_frequency_mhz s frequency_mhz
  | .radio_set_paboost state => radio_set_paboost s state
  | .radio_get_paboost => radio_get_paboost s
  | .radio_set_power power => radio_set_power s power
  | .radio_set_modulation mode => radio_set_modulation s mode
  | .radio_set_crc state => radio_set_crc s state
  | .radio_get_crc => radio_get_crc s
  | .radio_get_modulation => radio_get_modulation s
  | .radio_get_frequency => radio_get_frequency s
  | .radio_get_power => radio_get_power s
  | .radio_transmit data count => radio_transmit s data count
  | .radio_stop_reception => radio_stop_reception s
  | .radio_get_signal_noise_ratio => radio_get_signal_noise_ratio s
  | .radio_get_packet_rssi => radio_get_packet_rssi s
  | .radio_set_cw state => radio_set_cw s state
  | .set_listen_before_talk a b c d => set_listen_before_talk s a b c d
  | .get_listen_before_talk => get_listen_before_talk s

/-- The parameter-validator contract of each command operation: exactly the
conditions under which the source's validator does not raise `ValueError`
before reaching `send_command`. -/
def opValid : Op → Prop
  | .sys_sleep mode duration => (mode = "standby" ∨ mode = "backup") ∧ 1000 ≤ duration
  | .radio_set_frequency f =>
      ¬((f < 137000000 ∨ f > 175000000) ∧ (f < 410000000 ∨ f > 525000000) ∧
        (f < 862000000 ∨ f > 1020000000))
  | .radio_set_frequency_mhz q =>
      ¬((pyInt (q * 1000000) < 137000000 ∨ pyInt (q * 1000000) > 175000000) ∧
        (pyInt (q * 1000000) < 410000000 ∨ pyInt (q * 1000000) > 525000000) ∧
        (pyInt (q * 1000000) < 862000000 ∨ pyInt (q * 1000000) > 1020000000))
  | .radio_set_paboost state => state = "on" ∨ state = "off"
  | .radio_set_power power => -4 ≤ power ∧ power ≤ 20
  | .radio_set_modulation mode => mode = "lora" ∨ mode = "fsk"
  | .radio_set_cw state => state = "on" ∨ state = "off"
  | _ => True

/-- A concrete open serial port whose device answers `"ok"` to every line. -/
def spW : SerialPort := ⟨fun _ => "ok", []⟩

/-- A concrete discovery candidate answering a version string of a different
radio module (no `WLR089` in it). -/
def candW : Candidate := ⟨fun _ => "RN2483 1.0.5 Mar 22 2017 17:04:27"⟩

/-! ## Theorems -/

/-- C1: For every integer frequency `f`, `radio_set_frequency(f)` passes
validation and sends the command exactly when `f` lies in one of the three
closed intervals `[137000000, 175000000]`, `[410000000, 525000000]`,
`[862000000, 1020000000]`; boundary values are accepted and every `f` outside
every interval is rejected with `InvalidParameter`. -/
theorem radio_set_frequency_bands (f : Int) (sp : SerialPort) :
    (radio_set_frequency ⟨some sp⟩ f = .error .invalidParameter ↔
      ¬((137000000 ≤ f ∧ f ≤ 175000000) ∨ (410000000 ≤ f ∧ f ≤ 525000000) ∨
        (862000000 ≤ f ∧ f ≤ 1020000000))) ∧
    (((137000000 ≤ f ∧ f ≤ 175000000) ∨ (410000000 ≤ f ∧ f ≤ 525000000) ∨
        (862000000 ≤ f ∧ f ≤ 1020000000)) →
      radio_set_frequency ⟨some sp⟩ f =
        .ok (pyStrip (sp.respond ("radio set freq " ++ toString f ++ "\r\n")),
             ⟨some { sp with written := sp.written ++ ["radio set freq " ++ toString f ++ "\r\n"] }⟩)) := by
  by_cases hc : (f < 137000000 ∨ f > 175000000) ∧ (f < 410000000 ∨ f > 525000000) ∧
      (f < 862000000 ∨ f > 1020000000)
  · constructor
    · exact ⟨fun _ => by omega, fun _ => by simp only [radio_set_frequency, if_pos hc]⟩
    · intro hb
      exfalso
      omega
  · have hb : (137000000 ≤ f ∧ f ≤ 175000000) ∨ (410000000 ≤ f ∧ f ≤ 525000000) ∨
      (862000000 ≤ f ∧ f ≤ 1020000000) := by omega
    constructor
    · simp only [radio_set_frequency, if_neg hc, send_command]
      constructor
      · intro he
        exact absurd he (by simp)
      · intro hnb
        exact absurd hb hnb
    · intro _
      simp only [radio_set_frequency, if_neg hc]
      rfl

/-- Witness for C1: the inclusive boundary 137000000 Hz is accepted and the
line is written; 175000001 Hz (one outside the first band) is rejected. -/
theorem radio_set_frequency_bands_witness :
    radio_set_frequency ⟨some spW⟩ 137000000 =
      .ok ("ok", ⟨some ⟨fun _ => "ok", ["radio set freq 137000000\r\n"]⟩⟩) ∧
    radio_set_frequency ⟨some spW⟩ 175000001 = .error .invalidParameter :=
  ⟨(radio_set_frequency_bands 137000000 spW).2 (by omega),
   (radio_set_frequency_bands 175000001 spW).1.mpr (by omega)⟩

/-- C2: `radio_set_frequency_mhz 868.35` (the exact value of that IEEE
double) encodes and sends the same validated Hz value as
`radio_set_frequency 868350000`; in general, the conversion multiplies the
MHz value by 1000000 and truncates to an integer before applying the same
validation. -/
theorem radio_set_frequency_mhz_conversion :
    (∀ s : Session, radio_set_frequency_mhz s fp868_35 = radio_set_frequency s 868350000) ∧
    (∀ (s : Session) (q : ℚ),
      radio_set_frequency_mhz s q = radio_set_frequency s (pyInt (q * 1000000))) := by
  have h1 : fp868_35 * 1000000 = (119345115247411203125 : ℚ) / 137438953472 := by
    norm_num [fp868_35]
  have key : pyInt (fp868_35 * 1000000) = 868350000 := by
    rw [h1]
    simp only [pyInt]
    rw [if_pos (by norm_num)]
    rw [Int.floor_eq_iff]
    constructor <;> norm_num
  constructor
  · intro s
    show radio_set_frequency s (pyInt (fp868_35 * 1000000)) = radio_set_frequency s 868350000
    rw [key]
  · intro s q
    rfl

/-- The candidate loop of discovery leaves `self.serial` as `None` whenever no
candidate's version reply contains the `WLR089` identifier. -/
theorem find_and_open_loop_no_match (ports : List Candidate)
    (h : ∀ c ∈ ports, strContains (pyStrip (c.respond "sys get ver\r\n")) "WLR089" = false) :
    find_and_open_loop ⟨none⟩ ports = ⟨none⟩ := by
  induction ports with
  | nil => rfl
  | cons c rest ih =>
    have hc := h c (by simp)
    have hrest : ∀ x ∈ rest, strContains (pyStrip (x.respond "sys get ver\r\n")) "WLR089" = false :=
      fun x hx => h x (by simp [hx])
    have hcat : "sys get ver" ++ "\r\n" = "sys get ver\r\n" := rfl
    simp only [find_and_open_loop, sys_get_version, send_command, hcat]
    rw [if_neg (by simp [hc])]
    exact ih hrest

/-- C3: For every enumerated candidate sequence in which no candidate's
version-query response contains the `WLR089` identifier (including the empty
sequence), `find_and_open` fails with `DeviceNotFoundError` and afterwards
the Session is Closed (`self.serial` is `None`). -/
theorem find_and_open_no_match (ports : List Candidate)
    (h : ∀ c ∈ ports, strContains (pyStrip (c.respond "sys get ver\r\n")) "WLR089" = false) :
    find_and_open ⟨none⟩ ports = (.error .deviceNotFound, ⟨none⟩) := by
  simp only [find_and_open, find_and_open_loop_no_match ports h]
  rfl

/-- Witness for C3: a single candidate answering an RN2483 version string is
rejected, discovery raises `DeviceNotFoundError`, and the session holds no
handle. -/
theorem find_and_open_no_match_witness :
    find_and_open ⟨none⟩ [candW] = (.error .deviceNotFound, ⟨none⟩) :=
  find_and_open_no_match [candW] (by
    intro c hc
    rw [List.mem_singleton] at hc
    subst hc
    rfl)

/-- C4: every command operation of the Session's public surface (system
commands, radio get/set commands), invoked with parameters its validator
accepts while the Session is Closed (no open transport handle), fails with
`NotConnectedError` (in CPython, the attribute access on `self.serial = None`
inside `send_command`). -/
theorem closed_session_commands_fail (s : Session) (hs : s.serial = none)
    (op : Op) (h : opValid op) : runOp s op = .error .notConnected := by
  cases s with
  | mk ser =>
    simp only at hs
    subst hs
    cases op with
    | sys_reset => rfl
    | sys_sleep mode duration =>
      simp only [opValid] at h
      simp only [runOp, sys_sleep]
      rw [if_neg (not_not_intro h.1), if_neg (by omega)]
      rfl
    | sys_factory_reset => rfl
    | sys_get_version => rfl
    | radio_set_frequency frequency =>
      simp only [opValid] at h
      simp only [runOp, radio_set_frequency]
      rw [if_neg h]
      rfl
    | radio_set_frequency_mhz frequency_mhz =>
      simp only [opValid] at h
      simp only [runOp, radio_set_frequency_mhz, radio_set_frequency]
      rw [if_neg h]
      rfl
    | radio_set_paboost state =>
      simp only [opValid] at h
      simp only [runOp, radio_set_paboost]
      rw [if_neg (not_not_intro h)]
      rfl
    | radio_get_paboost => rfl
    | radio_set_power power =>
      simp only [opValid] at h
      simp only [runOp, radio_set_power]
      rw [if_neg (by omega)]
      rfl
    | radio_set_modulation mode =>
      simp only [opValid] at h
      simp only [runOp, radio_set_modulation]
      rw [if_neg (not_not_intro h)]
      rfl
    | radio_set_crc state => rfl
    | radio_get_crc => rfl
    | radio_get_modulation => rfl
    | radio_get_frequency => rfl
    | radio_get_power => rfl
    | radio_transmit data count => rfl
    | radio_stop_reception => rfl
    | radio_get_signal_noise_ratio => rfl
    | radio_get_packet_rssi => rfl
    | radio_set_cw state =>
      simp only [opValid] at h
      simp only [runOp, radio_set_cw]
      rw [if_neg (not_not_intro h)]
      rfl
    | set_listen_before_talk a b c d => rfl
    | get_listen_before_talk => rfl

/-- Witness for C4: the version query on a fresh (closed) session fails with
`NotConnectedError`. -/
theorem closed_session_commands_fail_witness :
    (⟨none⟩ : Session).serial = none ∧ opValid Op.sys_get_version ∧
    runOp ⟨none⟩ Op.sys_get_version = .error .notConnected :=
  ⟨rfl, trivial, closed_session_commands_fail ⟨none⟩ rfl Op.sys_get_version trivial⟩

theorem toHexFuel_zero (fuel : Nat) (acc : List Char) : toHexFuel fuel 0 acc = acc := by
  cases fuel with
  | zero => rfl
  | succ n => rfl

/-- `f"{n:02x}"` of a byte value is exactly the two lowercase hex digits of
its nibbles. -/
theorem pyHexFmt2_two_digits (n : Nat) (h : n < 256) :
    pyHexFmt2 n = ⟨[hexDigit (n / 16), hexDigit (n % 16)]⟩ := by
  by_cases h0 : n = 0
  · subst h0
    rfl
  · obtain ⟨m, rfl⟩ : ∃ m, n = m + 1 := ⟨n - 1, by omega⟩
    by_cases h16 : m + 1 < 16
    · have hds : toHexFuel (m + 1) (m + 1) [] = [hexDigit ((m + 1) % 16)] := by
        simp only [toHexFuel, h0, if_false]
        rw [Nat.div_eq_of_lt h16, toHexFuel_zero]
      simp only [pyHexFmt2, h0, if_false, hds]
      rw [Nat.div_eq_of_lt h16, Nat.mod_eq_of_lt h16]
      rfl
    · have h1 : (m + 1) / 16 ≠ 0 := by
        intro hz
        omega
      have h2 : (m + 1) / 16 < 16 := by omega
      obtain ⟨k, hk⟩ : ∃ k, m = k + 1 := ⟨m - 1, by omega⟩
      have hds : toHexFuel (m + 1) (m + 1) [] =
          [hexDigit ((m + 1) / 16), hexDigit ((m + 1) % 16)] := by
        subst hk
        simp only [toHexFuel, h0, if_false]
        rw [if_neg h1, Nat.div_div_eq_div_mul]
        rw [Nat.div_eq_of_lt (by omega), toHexFuel_zero,
          Nat.mod_eq_of_lt h2]
      simp only [pyHexFmt2, h0, if_false, hds]
      rfl

theorem hexDigitVal_hexDigit (n : Nat) (h : n < 16) : hexDigitVal (hexDigit n) = some n := by
  revert h
  revert n
  decide

/-- `bytes.fromhex` undoes one `f"{n:02x}"`-encoded byte at the front. -/
theorem bytesFromHex_encode (n : Nat) (h : n < 256) (rest : List Char) :
    bytesFromHex ((pyHexFmt2 n).data ++ rest) = (bytesFromHex rest).map (fun bs => n :: bs) := by
  rw [pyHexFmt2_two_digits n h]
  show bytesFromHex (hexDigit (n / 16) :: hexDigit (n % 16) :: rest) = _
  have hhi : n / 16 < 16 := by omega
  have hlo : n % 16 < 16 := by omega
  simp only [bytesFromHex, hexDigitVal_hexDigit _ hhi, hexDigitVal_hexDigit _ hlo]
  cases hrest : bytesFromHex rest with
  | none => rfl
  | some bs =>
    have h16 : 16 * (n / 16) + n % 16 = n := by omega
    show some ((16 * (n / 16) + n % 16) :: bs) = Option.map (fun bs => n :: bs) (some bs)
    rw [h16]
    rfl

/-- Strict UTF-8 decoding of an ASCII byte peels it off. -/
theorem utf8DecodeFuel_succ_ascii (fuel b : Nat) (h : b < 128) (bs : List Nat) :
    utf8DecodeFuel (fuel + 1) (b :: bs) =
      (utf8DecodeFuel fuel bs).map (fun l => Char.ofNat b :: l) := by
  show (if b < 128 then (utf8DecodeFuel fuel bs).map (fun cs => Char.ofNat b :: cs)
    else if b < 192 then none
    else if b < 224 then
      (bs.get? 0).bind (fun b1 =>
        if 128 ≤ b1 ∧ b1 < 192 then
          let cp := (b - 192) * 64 + (b1 - 128)
          if cp < 128 then none
          else (utf8DecodeFuel fuel (bs.drop 1)).map (fun cs => Char.ofNat cp :: cs)
        else none)
    else if b < 240 then
      (bs.get? 0).bind (fun b1 => (bs.get? 1).bind (fun b2 =>
        if (128 ≤ b1 ∧ b1 < 192) ∧ (128 ≤ b2 ∧ b2 < 192) then
          let cp := (b - 224) * 4096 + (b1 - 128) * 64 + (b2 - 128)
          if cp < 2048 ∨ (55296 ≤ cp ∧ cp ≤ 57343) then none
          else (utf8DecodeFuel fuel (bs.drop 2)).map (fun cs => Char.ofNat cp :: cs)
        else none))
    else if b < 248 then
      (bs.get? 0).bind (fun b1 => (bs.get? 1).bind (fun b2 => (bs.get? 2).bind (fun b3 =>
        if (128 ≤ b1 ∧ b1 < 192) ∧ (128 ≤ b2 ∧ b2 < 192) ∧ (128 ≤ b3 ∧ b3 < 192) then
          let cp := (b - 240) * 262144 + (b1 - 128) * 4096 + (b2 - 128) * 64 + (b3 - 128)
          if cp < 65536 ∨ cp > 1114111 then none
          else (utf8DecodeFuel fuel (bs.drop 3)).map (fun cs => Char.ofNat cp :: cs)
        else none)))
    else none) = (utf8DecodeFuel fuel bs).map (fun l => Char.ofNat b :: l)
  rw [if_pos h]

/-- `bytes.fromhex` of the transmit encoding of any text recovers the code
points (every code point below 256 encodes as exactly one byte). -/
theorem bytesFromHex_encodeChars (cs : List Char) (h : ∀ c ∈ cs, c.toNat < 256) :
    bytesFromHex (encodeChars cs) = some (cs.map Char.toNat) := by
  induction cs with
  | nil => rfl
  | cons c cs ih =>
    have hc : c.toNat < 256 := h c (by simp)
    have hrest : ∀ x ∈ cs, x.toNat < 256 := fun x hx => h x (by simp [hx])
    show bytesFromHex ((pyHexFmt2 c.toNat).data ++ encodeChars cs) = _
    rw [bytesFromHex_encode c.toNat hc, ih hrest]
    rfl

/-- Strict UTF-8 decoding of a list of ASCII code points recovers the
characters. -/
theorem utf8Decode_map_toNat (cs : List Char) (h : ∀ c ∈ cs, c.toNat < 128) :
    utf8Decode (cs.map Char.toNat) = some cs := by
  induction cs with
  | nil => rfl
  | cons c cs ih =>
    have hc : c.toNat < 128 := h c (by simp)
    show utf8DecodeFuel ((cs.map Char.toNat).length + 1) (c.toNat :: cs.map Char.toNat) = _
    rw [utf8DecodeFuel_succ_ascii _ _ hc]
    rw [show utf8DecodeFuel (cs.map Char.toNat).length (cs.map Char.toNat) =
      utf8Decode (cs.map Char.toNat) from rfl]
    rw [ih (fun x hx => h x (by simp [hx]))]
    simp [Char.ofNat_toNat]

/-- C5 (amended): encoding `"Hello, world!"` for transmission produces
exactly the lowercase two-hex-digit encoding of each character's code point
in order, and the receive-path decoding of that hex string yields
`"Hello, world!"` again; receive-decode after transmit-encode is the
identity for every payload all of whose characters are ASCII (code point
below 128).  (For a payload with a non-ASCII character the receive side's
strict UTF-8 decode of the per-character hex bytes fails, so the claimed
identity for *every* text payload does not hold; see the counterexample.) -/
theorem hex_roundtrip_ascii :
    radio_transmit_encode "Hello, world!" = "48656c6c6f2c20776f726c6421" ∧
    rxDecode "48656c6c6f2c20776f726c6421" = some "Hello, world!" ∧
    ∀ s : String, (∀ c ∈ s.data, c.toNat < 128) →
      rxDecode (radio_transmit_encode s) = some s := by
  refine ⟨by decide, by decide, ?_⟩
  intro s hs
  cases s with
  | mk data =>
    have hlt : ∀ c ∈ data, c.toNat < 256 := fun c hc => lt_trans (hs c hc) (by norm_num)
    show rxDecode ⟨encodeChars data⟩ = some ⟨data⟩
    simp only [rxDecode]
    rw [bytesFromHex_encodeChars data hlt]
    rw [Option.some_bind]
    rw [utf8Decode_map_toNat data hs]
    rfl

/-- Witness for C5's amended round trip, at the ASCII payload `"Hello"`. -/
theorem hex_roundtrip_ascii_witness :
    rxDecode (radio_transmit_encode "Hello") = some "Hello" :=
  hex_roundtrip_ascii.2.2 "Hello" (by decide)

/-- Counterexample to C5 as stated: for the one-character payload `"é"`
(code point 233) the transmit encoding is `"e9"`, and the receive path's
`bytes.fromhex("e9").decode()` fails (0xE9 alone is not valid UTF-8), so
receive-decode after transmit-encode is not the identity on every text
payload. -/
theorem hex_roundtrip_counterexample :
    radio_transmit_encode "é" = "e9" ∧
    rxDecode "e9" = none ∧
    rxDecode (radio_transmit_encode "é") ≠ some "é" := by
  refine ⟨by decide, by decide, by decide⟩

/-- Splitting a list without the separator yields one piece. -/
theorem splitChar_no_sep (sep : Char) (l : List Char) (h : sep ∉ l) :
    splitChar sep l = [l] := by
  induction l with
  | nil => rfl
  | cons c rest ih =>
    have hc : ¬(c = sep) := fun e => h (by simp [e])
    have hrest : sep ∉ rest := fun hr => h (List.mem_cons_of_mem _ hr)
    simp only [splitChar, ih hrest]
    rw [if_neg hc]

/-- Splitting peels off a separator-free leading group at the first
separator. -/
theorem splitChar_prefix_no_sep (pre : List Char) (hpre : ' ' ∉ pre) (tail : List Char) :
    splitChar ' ' (pre ++ ' ' :: tail) = pre :: splitChar ' ' tail := by
  induction pre with
  | nil =>
    simp [splitChar]
  | cons c rest ih =>
    have hc : ¬(c = ' ') := fun e => hpre (by simp [e])
    have hrest : ' ' ∉ rest := fun hr => hpre (List.mem_cons_of_mem _ hr)
    simp only [List.cons_append, splitChar]
    rw [if_neg hc]
    simp only [List.append_eq]
    rw [ih hrest]

/-- Python's `"radio_rx <hex>".split(" ")` for a space-free payload is the
two-element list of the prefix and the payload. -/
theorem pySplitSpace_event (hex : String) (h : ' ' ∉ hex.data) :
    pySplitSpace ("radio_rx " ++ hex) = ["radio_rx", hex] := by
  show (splitChar ' ' ("radio_rx".data ++ ' ' :: hex.data)).map (fun l => String.mk l) =
    ["radio_rx", hex]
  rw [splitChar_prefix_no_sep "radio_rx".data (by decide) hex.data]
  rw [splitChar_no_sep ' ' hex.data h]
  rfl

/-- C6 (amended): while streaming, every inbound line `radio_rx <hex>` whose
space-free hex payload decodes to text invokes the callback exactly once,
with that text — in particular `"radio_rx 48656c6c6f"` yields exactly one
invocation with `"Hello"`; a `radio_rx <hex>` line whose payload does not
decode invokes the callback zero times (the decode exception escapes the
loop, see the counterexample); and every line not beginning with the
`radio_rx` event prefix invokes the callback zero times. -/
theorem rx_line_dispatch :
    rxLoopRun ["radio_rx 48656c6c6f"] = (["Hello"], false) ∧
    rxProcessLine "radio_rx 48656c6c6f" = .ok (some "Hello") ∧
    (∀ hex txt : String, ' ' ∉ hex.data → rxDecode hex = some txt →
      rxProcessLine ("radio_rx " ++ hex) = .ok (some txt)) ∧
    (∀ hex : String, ' ' ∉ hex.data → rxDecode hex = none →
      rxProcessLine ("radio_rx " ++ hex) = .error ()) ∧
    (∀ line : String, pyStartswith line "radio_rx" = false →
      rxProcessLine line = .ok none ∧ rxLoopRun [line] = ([], false)) := by
  refine ⟨by decide, rfl, ?_, ?_, ?_⟩
  · intro hex txt hsp hdec
    simp only [rxProcessLine]
    rw [if_pos (show pyStartswith ("radio_rx " ++ hex) "radio_rx" = true from rfl)]
    rw [pySplitSpace_event hex hsp]
    simp [hdec]
  · intro hex hsp hdec
    simp only [rxProcessLine]
    rw [if_pos (show pyStartswith ("radio_rx " ++ hex) "radio_rx" = true from rfl)]
    rw [pySplitSpace_event hex hsp]
    simp [hdec]
  · intro line h
    have h1 : rxProcessLine line = .ok none := by
      simp only [rxProcessLine, h]
      rfl
    refine ⟨h1, ?_⟩
    simp only [rxLoopRun, h1]
    rfl

/-- Witness for C6's amended dispatch: the event line `"radio_rx 6869"`
invokes the callback exactly once with `"hi"`; the event line
`"radio_rx e9"` (payload does not decode) invokes it zero times; the plain
`"ok"` status line does not match the event prefix and invokes it zero
times. -/
theorem rx_line_dispatch_witness :
    rxProcessLine "radio_rx 6869" = .ok (some "hi") ∧
    rxProcessLine "radio_rx e9" = .error () ∧
    (pyStartswith "ok" "radio_rx" = false ∧
     rxProcessLine "ok" = .ok none ∧ rxLoopRun ["ok"] = ([], false)) :=
  ⟨rx_line_dispatch.2.2.1 "6869" "hi" (by decide) (by decide),
   rx_line_dispatch.2.2.2.1 "e9" (by decide) (by decide),
   by decide, rx_line_dispatch.2.2.2.2 "ok" (by decide)⟩

/-- Counterexample to C6 as stated: `"radio_rx e9"` is an inbound line of
the form `radio_rx <hex>` — the payload `"e9"` is valid hex and
`bytes.fromhex` yields the byte 0xE9 — yet the callback is invoked zero
times, not once: the strict UTF-8 text decode of that byte raises, and the
exception escapes the read loop. -/
theorem rx_line_dispatch_counterexample :
    pyStartswith "radio_rx e9" "radio_rx" = true ∧
    bytesFromHex ("e9".data) = some [233] ∧
    rxProcessLine "radio_rx e9" = .error () ∧
    rxLoopRun ["radio_rx e9"] = ([], true) :=
  ⟨by decide, by decide, rfl, by decide⟩

/-- C7 (code bug): `radio_stop_reception` exists and issues the
`radio rxstop` line, but the read loop of `radio_continous_reception` is an
unconditional `while True` — no inbound line (in particular not the stop
acknowledgement read after a stop request) makes it exit: over any finite
trace of inbound lines the loop is still running unless a malformed
`radio_rx` event line raised an exception out of the loop.  The claimed
"stop() causes the read loop to exit after draining at most one buffered
line" does not hold on the code. -/
theorem rx_loop_never_exits_on_stop :
    (∀ s : Session, radio_stop_reception s = send_command s "radio rxstop") ∧
    rxLoopRun ["ok"] = ([], false) ∧
    (∀ lines : List String, (rxLoopRun lines).2 = true →
      ∃ line ∈ lines, rxProcessLine line = .error ()) := by
  refine ⟨fun s => rfl, by decide, ?_⟩
  intro lines
  induction lines with
  | nil =>
    intro h
    simp [rxLoopRun] at h
  | cons l rest ih =>
    intro h
    simp only [rxLoopRun] at h
    cases hpl : rxProcessLine l with
    | error e =>
      exact ⟨l, by simp, by cases e; exact hpl⟩
    | ok inv =>
      rw [hpl] at h
      have h2 : (rxLoopRun rest).2 = true := by
        rcases hr : rxLoopRun rest with ⟨invs, ex⟩
        rw [hr] at h
        simpa using h
      obtain ⟨line, hm, he⟩ := ih h2
      exact ⟨line, List.mem_cons_of_mem _ hm, he⟩

/-- Witness for C7: the only way the loop's trace ends is an escaping
exception, here the malformed event line `"radio_rx zz"`. -/
theorem rx_loop_never_exits_on_stop_witness :
    (rxLoopRun ["radio_rx zz"]).2 = true ∧
    ∃ line ∈ ["radio_rx zz"], rxProcessLine line = .error () :=
  ⟨by decide, rx_loop_never_exits_on_stop.2.2 ["radio_rx zz"] (by decide)⟩

/-- Counterexample to C8 as stated: `radio_set_crc` performs no validation.
Called with the state `"banana"` (not in `{on, off}`) on an open session it
does not raise `InvalidParameter`; instead the command line
`"radio set crc banana\r\n"` is written to the transport. -/
theorem radio_set_crc_counterexample :
    radio_set_crc ⟨some spW⟩ "banana" ≠ .error .invalidParameter ∧
    writtenOf (radio_set_crc ⟨some spW⟩ "banana") = ["radio set crc banana\r\n"] := by
  constructor
  · intro hcontra
    simp [radio_set_crc, send_command, spW] at hcontra
  · rfl

/-- C8 (amended): `radio_set_crc` validates nothing — for every state string
`s`, including every `s` outside `{on, off}`, it encodes and sends
`radio set crc <s>`; on an open session the line is written and the module's
stripped reply returned.  (The sibling setters `radio_set_paboost` and
`radio_set_cw` do reject states outside `{on, off}` with
`InvalidParameter`.) -/
theorem radio_set_crc_no_validation (state : String) (sp : SerialPort) :
    radio_set_crc ⟨some sp⟩ state =
      .ok (pyStrip (sp.respond ("radio set crc " ++ state ++ "\r\n")),
           ⟨some { sp with written := sp.written ++ ["radio set crc " ++ state ++ "\r\n"] }⟩) ∧
    (radio_set_paboost ⟨some sp⟩ "banana" = .error .invalidParameter ∧
     radio_set_cw ⟨some sp⟩ "banana" = .error .invalidParameter) := by
  refine ⟨rfl, ?_, ?_⟩
  · simp only [radio_set_paboost]
    rw [if_pos (by simp)]
  · simp only [radio_set_cw]
    rw [if_pos (by simp)]

/-- C9 (modelled from the spec, there being no spreading-factor setter in
`src/LoRa.py`): the set-spreading-factor operation accepts every integer in
the closed interval `[7, 12]` (sending the command on an open session) and
rejects every integer outside it with `InvalidParameter` before any wire
interaction — on *every* session state the rejection is the same error and
nothing is written. -/
theorem radio_set_spreading_factor_range (sf : Int) (sp : SerialPort) :
    (radio_set_spreading_factor ⟨some sp⟩ sf = .error .invalidParameter ↔ ¬(7 ≤ sf ∧ sf ≤ 12)) ∧
    ((7 ≤ sf ∧ sf ≤ 12) →
      radio_set_spreading_factor ⟨some sp⟩ sf =
        .ok (pyStrip (sp.respond ("radio set sf " ++ toString sf ++ "\r\n")),
             ⟨some { sp with written := sp.written ++ ["radio set sf " ++ toString sf ++ "\r\n"] }⟩)) ∧
    (¬(7 ≤ sf ∧ sf ≤ 12) → ∀ s : Session,
      radio_set_spreading_factor s sf = .error .invalidParameter ∧
      writtenOf (radio_set_spreading_factor s sf) = []) := by
  by_cases hc : sf < 7 ∨ sf > 12
  · refine ⟨⟨fun _ => by omega, fun _ => by simp only [radio_set_spreading_factor, if_pos hc]⟩,
      fun hb => by omega, fun _ s => ?_⟩
    simp only [radio_set_spreading_factor, if_pos hc]
    exact ⟨trivial, rfl⟩
  · have hb : 7 ≤ sf ∧ sf ≤ 12 := by omega
    refine ⟨?_, fun _ => ?_, fun hnb => absurd hb hnb⟩
    · simp only [radio_set_spreading_factor, if_neg hc, send_command]
      constructor
      · intro he
        exact absurd he (by simp)
      · intro hnb
        exact absurd hb hnb
    · simp only [radio_set_spreading_factor, if_neg hc]
      rfl

/-- Witness for C9: spreading factor 7 (a boundary) is accepted and sent;
spreading factor 13 is rejected with `InvalidParameter` and nothing is
written. -/
theorem radio_set_spreading_factor_range_witness :
    radio_set_spreading_factor ⟨some spW⟩ 7 =
      .ok ("ok", ⟨some ⟨fun _ => "ok", ["radio set sf 7\r\n"]⟩⟩) ∧
    radio_set_spreading_factor ⟨none⟩ 13 = .error .invalidParameter ∧
    writtenOf (radio_set_spreading_factor ⟨none⟩ 13) = [] :=
  ⟨(radio_set_spreading_factor_range 7 spW).2.1 (by omega),
   (radio_set_spreading_factor_range 13 spW).2.2 (by omega) ⟨none⟩⟩

/-- C10: for every Session, open or closed, `radio_get_frequency_mhz` fails
with an `AttributeError` rather than returning the current frequency in MHz:
its body calls `self.get_radio_frequency()`, and no attribute of that name
is defined on class `CanSat_LoRa` (the getter is named
`radio_get_frequency`). -/
theorem radio_get_frequency_mhz_attribute_error :
    canSatLoRaMethods.contains "get_radio_frequency" = false ∧
    canSatLoRaMethods.contains "radio_get_frequency" = true ∧
    ∀ s : Session, radio_get_frequency_mhz s = .error .attributeError :=
  ⟨rfl, rfl, fun _ => rfl⟩
